import Mathlib

/-!
Verification development for the Lingshu MCP repository
(`mcp_server_lingshu.py` and `mcp_client_lingshu.py`).

The server exposes three tool operations (`analyze_medical_image`,
`generate_medical_report`, `medical_qa`) that validate their inputs, build a
prompt, delegate to a backend chat-completion model through
`LingshuModelClient.generate`, and return a result dictionary.  The client
translates the provider's tool descriptors into function-calling schemas.

The embedding is shallow: the backend HTTP call is a parameter of type
`Backend` (a function from the request the client would send to either the
generated text or a failure description), the filesystem is a parameter of
type `FileSystem`, and `datetime.now()` renderings are a `Clock` parameter.
Each operation returns its result dictionary together with the list of
backend requests it issued, so "performs no backend call" is the statement
that this list is empty.
-/

namespace LingshuMCP

/-! ## Python string primitives -/

/-- Python whitespace characters recognised by `str.strip()` (ASCII range). -/
def pyWhitespace (c : Char) : Bool :=
  c == ' ' || c == '\t' || c == '\n' || c == '\x0d' || c == '\x0b' || c == '\x0c'

/-- Python `str.strip()`: remove leading and trailing whitespace. -/
def pyStrip (s : String) : String :=
  ⟨((s.data.dropWhile pyWhitespace).reverse.dropWhile pyWhitespace).reverse⟩

/-- Python `str.upper()` (ASCII letters; the report types used are ASCII). -/
def pyUpper (s : String) : String :=
  s.map Char.toUpper

/-- Python `str.title()`: uppercase each letter that follows a non-letter,
lowercase the others (ASCII model). -/
def pyTitle (s : String) : String :=
  ⟨(s.data.foldl
      (fun acc c =>
        ((if acc.2 then c.toLower else c.toUpper) :: acc.1, c.isAlpha))
      ([], false)).1.reverse⟩

/-- Python truthiness of an optional string (`None` and `""` are falsy). -/
def pyTruthyStr : Option String → Bool
  | none => false
  | some s => !(s == "")

/-! ## base64 (Python `base64.b64encode(...).decode("utf-8")`) -/

/-- The standard base64 alphabet. -/
def b64Chars : List Char :=
  "ABCDEFGHIJKLMNOPQRSTUVWXYZabcdefghijklmnopqrstuvwxyz0123456789+/".data

/-- The base64 digit for a 6-bit value. -/
def b64Char (n : Nat) : Char :=
  b64Chars.getD n '='

/-- Encode a byte list in base64, three bytes to four digits, `=`-padded. -/
def base64Chunks : List (Fin 256) → List Char
  | [] => []
  | [a] =>
      [b64Char (a.val / 4), b64Char (a.val % 4 * 16), '=', '=']
  | [a, b] =>
      [b64Char (a.val / 4), b64Char (a.val % 4 * 16 + b.val / 16),
       b64Char (b.val % 16 * 4), '=']
  | a :: b :: c :: rest =>
      b64Char (a.val / 4) :: b64Char (a.val % 4 * 16 + b.val / 16) ::
      b64Char (b.val % 16 * 4 + c.val / 64) :: b64Char (c.val % 64) ::
      base64Chunks rest

/-- `base64.b64encode(data).decode("utf-8")` as a string. -/
def base64Encode (bs : List (Fin 256)) : String :=
  ⟨base64Chunks bs⟩

/-! ## JSON serialisation of the patient-info dictionary

`json.dumps(patient_info, indent=2)` for a string-valued dictionary whose
keys and values need no JSON escaping (the only use in the source). -/

def jsonDumps (obj : List (String × String)) : String :=
  if obj = [] then "\x7b\x7d"
  else
    "\x7b\n" ++
    String.intercalate ",\n"
      (obj.map (fun kv => "  \"" ++ kv.1 ++ "\": \"" ++ kv.2 ++ "\"")) ++
    "\n\x7d"

/-! ## Backend model client (`LingshuModelClient`) -/

/-- The message content sent to the chat-completions endpoint: plain text, or
a two-part text plus image data-URI structure when image data is supplied. -/
inductive Content where
  | text (s : String)
  | withImage (s : String) (dataUri : String)
deriving DecidableEq

/-- The prompt text carried by a message content. -/
def Content.textOf : Content → String
  | .text s => s
  | .withImage s _ => s

/-- One chat-completion request as assembled by
`LingshuModelClient.generate`.  `temperature10` is the sampling temperature
in tenths (`1` for 0.1, `2` for 0.2), avoiding floating point. -/
structure GenRequest where
  model : String
  content : Content
  max_tokens : Nat
  temperature10 : Nat
deriving DecidableEq

/-- The backend chat-completion endpoint, abstracted: it maps the request to
the first completion's text, or to a failure description when the transport
or API call fails (network fault, malformed response, ...). -/
abbrev Backend := GenRequest → Except String String

/-- The `LingshuModelClient` state: the configured model identifier.  The
base URL and API key only configure the HTTP transport, which is abstracted
by `Backend`. -/
structure LingshuModelClient where
  model : String

/-- The request that `LingshuModelClient.generate` sends: content is the
two-part structure with a `data:image/png;base64,` URI when `image_data` is
truthy, plain text otherwise. -/
def LingshuModelClient.request (c : LingshuModelClient) (prompt : String)
    (image_data : Option String) (max_tokens temperature10 : Nat) :
    GenRequest :=
  { model := c.model
    content :=
      if pyTruthyStr image_data then
        Content.withImage prompt ("data:image/png;base64," ++ image_data.getD "")
      else
        Content.text prompt
    max_tokens := max_tokens
    temperature10 := temperature10 }

/-- `LingshuModelClient.generate`: issue the chat-completion request; any
failure is caught and re-raised as
`Exception("Lingshu model call failed: ...")` carrying the original
description. -/
def LingshuModelClient.generate (c : LingshuModelClient) (backend : Backend)
    (prompt : String) (image_data : Option String)
    (max_tokens temperature10 : Nat) : Except String String :=
  match backend (c.request prompt image_data max_tokens temperature10) with
  | .ok s => .ok s
  | .error e => .error ("Lingshu model call failed: " ++ e)

/-! ## Tool result dictionaries -/

/-- The dictionary returned by the three tool operations.  Each field is
`none` when the corresponding key is absent from the returned dictionary. -/
structure Envelope where
  status : Option String := none
  error : Option String := none
  timestamp : Option String := none
  model : Option String := none
  analysis_type : Option String := none
  language : Option String := none
  report : Option String := none
  report_type : Option String := none
  template : Option String := none
  findings_count : Option Nat := none
  question : Option String := none
  specialty : Option String := none
  answer : Option String := none
deriving DecidableEq

/-- The filesystem: maps a path to the file's bytes, or to the `OSError`
description that `open` raises (nonexistent or unreadable file). -/
abbrev FileSystem := String → Except String (List (Fin 256))

/-- The renderings of `datetime.now()` used by the server: `isoformat()`,
`strftime('%Y-%m-%d')` and the Chinese date format. -/
structure Clock where
  iso : String
  dateEn : String
  dateZh : String

/-! ## Prompt templates

Transcribed verbatim from the f-strings in `mcp_server_lingshu.py`; the
interpolation slots become function arguments. -/

/-- English prompt of `analyze_medical_image`. -/
def analyzePromptEn (analysis_type patient_context : String) : String :=
  "You are a highly trained medical AI assistant specializing in " ++
  analysis_type ++ " image analysis.

Analyze the provided medical image and provide a comprehensive assessment including:

1. **Technical Quality Assessment:**
   - Image quality, positioning, and technique
   - Any technical limitations or artifacts

2. **Anatomical Observations:**
   - Detailed description of visible structures
   - Normal anatomical findings
   - Any anatomical variations

3. **Pathological Findings:**
   - Identify abnormal findings with precise descriptions
   - Location, size, morphology, and characteristics
   - Severity assessment where applicable

4. **Clinical Interpretation:**
   - Most likely differential diagnoses
   - Clinical significance and implications
   - Correlation with provided context

5. **Recommendations:**
   - Additional imaging or studies needed
   - Urgent vs routine clinical follow-up
   - Specific management suggestions

Patient Context: " ++ patient_context ++ "

Provide your analysis in a structured, professional medical report format."

/-- Chinese prompt of `analyze_medical_image`. -/
def analyzePromptZh (analysis_type patient_context : String) : String :=
  "您是一位经验丰富的" ++ analysis_type ++ "影像学专家。请对提供的医学影像进行全面分析：

1. **技术质量评估：**
   - 影像质量、体位和技术参数
   - 技术限制或伪影

2. **解剖学观察：**
   - 可见结构的详细描述 \x20
   - 正常解剖学表现
   - 解剖变异

3. **病理学发现：**
   - 异常发现的精确描述
   - 位置、大小、形态学特征
   - 严重程度评估

4. **临床解读：**
   - 可能的鉴别诊断
   - 临床意义和影响
   - 与临床背景的关联

5. **建议：**
   - 需要的进一步检查
   - 紧急或常规随访建议
   - 具体管理意见

患者背景：" ++ patient_context ++ "

请以结构化的专业医学报告格式提供分析。"

/-- English prompt of `generate_medical_report`.  `dateEn` stands for the
interpolated `datetime.now().strftime('%Y-%m-%d')`. -/
def reportPromptEn (report_type findings_text patient_text template dateEn : String) :
    String :=
  "You are a medical reporting specialist. Generate a comprehensive " ++
  report_type ++ " medical report based on the following findings.

**Clinical Findings:**
" ++ findings_text ++ "

**Patient Information:**
" ++ (if patient_text = "" then "Not provided" else patient_text) ++ "

Generate a structured medical report in the following format:

**MEDICAL REPORT - " ++ pyUpper report_type ++ "**
Date: " ++ dateEn ++ "
Report Type: " ++ pyTitle report_type ++ "

**CLINICAL HISTORY:**
[Based on provided patient information and context]

**FINDINGS:**
[Detailed analysis of each finding with clinical correlation]

**IMPRESSION:**
[Concise summary of key findings and clinical significance]

**RECOMMENDATIONS:**
[Specific recommendations for patient management, follow-up, or additional studies]

**CLINICAL CORRELATION:**
[How findings correlate with clinical presentation and patient history]

Ensure the report is:
- Medically accurate and professional
- Appropriately detailed for the " ++ template ++ " template
- Clear and actionable for healthcare providers
- Compliant with medical reporting standards"

/-- Chinese prompt of `generate_medical_report`.  `dateZh` stands for the
interpolated Chinese-format date. -/
def reportPromptZh (report_type findings_text patient_text template dateZh : String) :
    String :=
  "您是一位专业的医学报告专家。请基于以下医学发现生成一份全面的" ++ report_type ++ "医学报告。

**临床发现:**
" ++ findings_text ++ "

**患者信息:**
" ++ (if patient_text = "" then "未提供" else patient_text) ++ "

请按以下格式生成结构化医学报告：

**医学报告 - " ++ pyUpper report_type ++ "**
日期: " ++ dateZh ++ "
报告类型: " ++ report_type ++ "

**临床病史:**
[基于提供的患者信息和背景]

**检查发现:**
[每项发现的详细分析和临床关联]

**诊断印象:**
[关键发现的简洁总结和临床意义]

**建议:**
[患者管理、随访或其他检查的具体建议]

**临床关联:**
[发现与临床表现和患者病史的关联性]

请确保报告：
- 医学准确且专业
- 符合" ++ template ++ "模板的详细程度
- 对医护人员清晰可行
- 符合医学报告标准"

/-- English prompt of `medical_qa`. -/
def qaPromptEn (specialty question context : String) : String :=
  "You are a knowledgeable medical expert specializing in " ++ specialty ++ ".\x20
Please provide a comprehensive, accurate, and professional answer to the following medical question.

**Question:** " ++ question ++ "

**Context:** " ++
  (if context = "" then "No additional context provided" else context) ++ "

Please provide:
1. A clear, evidence-based answer
2. Relevant medical terminology and explanations
3. Clinical considerations where applicable
4. Any important caveats or limitations
5. Recommendations for further evaluation if needed

Note: This response is for educational purposes and should not replace professional medical consultation."

/-- Chinese prompt of `medical_qa`. -/
def qaPromptZh (specialty question context : String) : String :=
  "您是一位在" ++ specialty ++ "领域知识丰富的医学专家。
请为以下医学问题提供全面、准确、专业的答案。

**问题:** " ++ question ++ "

**背景:** " ++ (if context = "" then "无额外背景信息" else context) ++ "

请提供：
1. 清晰、基于循证医学的答案
2. 相关医学术语和解释
3. 适用的临床考虑因素
4. 重要的注意事项或限制
5. 必要时的进一步评估建议

注意：此回答仅用于教育目的，不应替代专业医学咨询。"

/-- The educational disclaimer mandated by the English `medical_qa` prompt. -/
def qaDisclaimerEn : String :=
  "Note: This response is for educational purposes and should not replace professional medical consultation."

/-! ## Tool operations

Each operation takes the ambient collaborators (`client`, `backend`, and for
`analyze_medical_image` the filesystem) plus its parameters, and returns the
result dictionary together with the list of backend requests issued. -/

/-- The enumerated analysis types accepted by `analyze_medical_image`. -/
def valid_types : List String :=
  ["radiology", "pathology", "dermatology", "ophthalmology", "general"]

/-- `analyze_medical_image(image_path, analysis_type, patient_context, language)`. -/
def analyze_medical_image (client : LingshuModelClient) (backend : Backend)
    (fs : FileSystem) (clock : Clock)
    (image_path analysis_type patient_context language : String) :
    Envelope × List GenRequest :=
  if image_path = "" then
    ({ error := some "No image data provided" }, [])
  else
    match fs image_path with
    | .error e =>
        ({ status := some "error", error := some e,
           timestamp := some clock.iso }, [])
    | .ok bytes =>
        let image_base64 := base64Encode bytes
        let analysis_type :=
          if analysis_type ∈ valid_types then analysis_type else "general"
        let prompt :=
          if language = "en" then analyzePromptEn analysis_type patient_context
          else analyzePromptZh analysis_type patient_context
        match client.generate backend prompt (some image_base64) 2048 1 with
        | .ok result =>
            ({ status := some "success", analysis_type := some analysis_type,
               language := some language, report := some result,
               timestamp := some clock.iso, model := some "lingshu" },
             [client.request prompt (some image_base64) 2048 1])
        | .error e =>
            ({ status := some "error", error := some e,
               timestamp := some clock.iso },
             [client.request prompt (some image_base64) 2048 1])

/-- `generate_medical_report(findings, report_type, patient_info, language, template)`. -/
def generate_medical_report (client : LingshuModelClient) (backend : Backend)
    (clock : Clock) (findings : List String) (report_type : String)
    (patient_info : Option (List (String × String)))
    (language template : String) : Envelope × List GenRequest :=
  if findings = [] then
    ({ error := some "No medical findings provided" }, [])
  else
    let patient_info := patient_info.getD []
    let findings_text :=
      String.intercalate "\n" (findings.map (fun finding => "• " ++ finding))
    let patient_text :=
      if patient_info = [] then ""
      else "Patient Information:\n" ++ jsonDumps patient_info ++ "\n"
    let prompt :=
      if language = "en" then
        reportPromptEn report_type findings_text patient_text template clock.dateEn
      else
        reportPromptZh report_type findings_text patient_text template clock.dateZh
    match client.generate backend prompt none 3072 1 with
    | .ok result =>
        ({ status := some "success", report_type := some report_type,
           template := some template, language := some language,
           report := some result, findings_count := some findings.length,
           timestamp := some clock.iso, model := some "lingshu" },
         [client.request prompt none 3072 1])
    | .error e =>
        ({ status := some "error", error := some e,
           timestamp := some clock.iso },
         [client.request prompt none 3072 1])

/-- `medical_qa(question, context, specialty, language)`. -/
def medical_qa (client : LingshuModelClient) (backend : Backend)
    (clock : Clock) (question context specialty language : String) :
    Envelope × List GenRequest :=
  if pyStrip question = "" then
    ({ error := some "No question provided" }, [])
  else
    let prompt :=
      if language = "en" then qaPromptEn specialty question context
      else qaPromptZh specialty question context
    match client.generate backend prompt none 2048 2 with
    | .ok result =>
        ({ status := some "success", question := some question,
           specialty := some specialty, language := some language,
           answer := some result, timestamp := some clock.iso,
           model := some "lingshu" },
         [client.request prompt none 2048 2])
    | .error e =>
        ({ status := some "error", error := some e,
           timestamp := some clock.iso },
         [client.request prompt none 2048 2])

/-! ## Orchestrating agent: schema translation (`mcp_client_lingshu.py`)

`main` retrieves the tool list and converts each MCP tool schema into the
OpenAI function-calling shape.  A property definition dictionary is carried
through unchanged by the dict comprehension, so it is modelled as an opaque
key-value list. -/

/-- One property definition from a tool's input schema (kept opaque: the
dict comprehension in `main` copies each `prop_def` through unchanged). -/
abbrev PropDef := List (String × String)

/-- The input schema of one MCP tool: optional `type`, the `properties`
mapping (a mandatory key: `main` indexes it directly), and optional
`required`. -/
structure InputSchema where
  type? : Option String
  properties : List (String × PropDef)
  required? : Option (List String)
deriving DecidableEq

/-- One Tool Descriptor as returned by `mcp_client.list_tools()`. -/
structure ToolInfo where
  name : String
  description : String
  inputSchema : InputSchema
deriving DecidableEq

/-- The `parameters` block of one function-calling schema entry. -/
structure FunctionParameters where
  type : String
  properties : List (String × PropDef)
  required : List String
deriving DecidableEq

/-- The `function` block of one function-calling schema entry. -/
structure FunctionDecl where
  name : String
  description : String
  parameters : FunctionParameters
deriving DecidableEq

/-- One entry of the `tool_schemas` list built by `main`. -/
structure FunctionSchema where
  type : String
  function : FunctionDecl
deriving DecidableEq

/-- The `tool_schemas` list comprehension of `main`: one entry per tool,
with `type` defaulting to `"object"` and `required` to `[]` via `.get`. -/
def tool_schemas (tools : List ToolInfo) : List FunctionSchema :=
  tools.map fun tool =>
    { type := "function"
      function :=
        { name := tool.name
          description := tool.description
          parameters :=
            { type := tool.inputSchema.type?.getD "object"
              properties := tool.inputSchema.properties.map (fun p => p)
              required := tool.inputSchema.required?.getD [] } } }

/-! ## Derived notions and concrete fixtures used by the statements -/

/-- `sub` occurs as a contiguous substring of `s`. -/
def strContains (s sub : String) : Prop :=
  ∃ pre post, s = pre ++ sub ++ post

/-- The three shapes a returned dictionary can take: a success envelope with
timestamp and model attribution, an error envelope with timestamp, or an
input-validation rejection carrying only an error message. -/
def wellFormedOutcome (e : Envelope) (iso : String) : Prop :=
  (e.status = some "success" ∧ e.timestamp = some iso ∧ e.model = some "lingshu")
  ∨ (e.status = some "error" ∧ e.timestamp = some iso ∧ e.error.isSome)
  ∨ (e.status = none ∧ e.timestamp = none ∧ e.model = none ∧ e.error.isSome)

/-- A stub backend that echoes the prompt of the request back as the
generated text (the stub of the `medical_qa` scenario). -/
def echoStubBackend : Backend := fun r => .ok r.content.textOf

/-- A concrete client fixture (the default model identifier). -/
def client0 : LingshuModelClient := ⟨"Lingshu-7B"⟩

/-- A concrete clock fixture. -/
def clock0 : Clock := ⟨"2025-01-01T00:00:00", "2025-01-01", "2025年01月01日"⟩

/-- A concrete filesystem holding one readable one-byte file. -/
def fs0 : FileSystem := fun p =>
  if p = "lung.jpeg" then .ok [(77 : Fin 256)]
  else .error ("[Errno 2] No such file or directory: " ++ p)

/-- The Tool Descriptor of `analyze_medical_image` as the transport
derives it from the operation signature. -/
def analyzeToolInfo : ToolInfo :=
  { name := "analyze_medical_image"
    description := "Analyze medical images using Lingshu"
    inputSchema :=
      { type? := some "object"
        properties :=
          [("image_path", [("type", "string")]),
           ("analysis_type", [("type", "string")]),
           ("patient_context", [("type", "string")]),
           ("language", [("type", "string")])]
        required? := some ["image_path"] } }

/-- The Tool Descriptor of `generate_medical_report`. -/
def reportToolInfo : ToolInfo :=
  { name := "generate_medical_report"
    description := "Generate structured medical reports using Lingshu medical model"
    inputSchema :=
      { type? := some "object"
        properties :=
          [("findings", [("type", "array")]),
           ("report_type", [("type", "string")]),
           ("patient_info", [("type", "object")]),
           ("language", [("type", "string")]),
           ("template", [("type", "string")])]
        required? := some ["findings"] } }

/-- The Tool Descriptor of `medical_qa`. -/
def qaToolInfo : ToolInfo :=
  { name := "medical_qa"
    description := "Answer medical questions using Lingshu medical model"
    inputSchema :=
      { type? := some "object"
        properties :=
          [("question", [("type", "string")]),
           ("context", [("type", "string")]),
           ("specialty", [("type", "string")]),
           ("language", [("type", "string")])]
        required? := some ["question"] } }

/-- The three Tool Descriptors the provider registers. -/
def tools3 : List ToolInfo :=
  [analyzeToolInfo, reportToolInfo, qaToolInfo]

/-! ## Helper lemmas -/

/-- The prompt text of an assembled request is the prompt it was built
from, with or without image data. -/
lemma textOf_request (c : LingshuModelClient) (p : String)
    (img : Option String) (mt t : Nat) :
    (c.request p img mt t).content.textOf = p := by
  show Content.textOf
    (if pyTruthyStr img then
      Content.withImage p ("data:image/png;base64," ++ img.getD "")
     else Content.text p) = p
  split <;> rfl

/-- The English and Chinese `analyze_medical_image` templates never
coincide: their leading characters differ. -/
lemma analyzePrompt_en_ne_zh (a c a2 c2 : String) :
    analyzePromptEn a c ≠ analyzePromptZh a2 c2 := by
  intro h
  have hEn : (analyzePromptEn a c).data.head? = some 'Y' := rfl
  rw [h] at hEn
  have hZh : (analyzePromptZh a2 c2).data.head? = some '您' := rfl
  rw [hZh] at hEn
  exact absurd hEn (by decide)

/-- The English and Chinese `generate_medical_report` templates never
coincide. -/
lemma reportPrompt_en_ne_zh (r f p t d r2 f2 p2 t2 d2 : String) :
    reportPromptEn r f p t d ≠ reportPromptZh r2 f2 p2 t2 d2 := by
  intro h
  have hEn : (reportPromptEn r f p t d).data.head? = some 'Y' := rfl
  rw [h] at hEn
  have hZh : (reportPromptZh r2 f2 p2 t2 d2).data.head? = some '您' := rfl
  rw [hZh] at hEn
  exact absurd hEn (by decide)

/-- The English and Chinese `medical_qa` templates never coincide. -/
lemma qaPrompt_en_ne_zh (s q c s2 q2 c2 : String) :
    qaPromptEn s q c ≠ qaPromptZh s2 q2 c2 := by
  intro h
  have hEn : (qaPromptEn s q c).data.head? = some 'Y' := rfl
  rw [h] at hEn
  have hZh : (qaPromptZh s2 q2 c2).data.head? = some '您' := rfl
  rw [hZh] at hEn
  exact absurd hEn (by decide)

/-! ## Claim theorems -/

/-- C1 (counterexample): `analyze_medical_image` invoked with an empty
`image_path` — an input-validation rejection — returns a dictionary with
neither a `status` field nor a `timestamp` field, contradicting the claim
that every outcome carries both. -/
theorem validation_rejection_lacks_status_and_timestamp :
    (analyze_medical_image client0 echoStubBackend fs0 clock0
        "" "radiology" "" "zh").1.status = none
    ∧ (analyze_medical_image client0 echoStubBackend fs0 clock0
        "" "radiology" "" "zh").1.timestamp = none :=
  ⟨rfl, rfl⟩

/-- C1 (amended): every outcome of the three operations is one of three
shapes — a success envelope with `status = "success"`, the timestamp and
the `model = "lingshu"` attribution; an error envelope with
`status = "error"`, the timestamp and an error message; or an
input-validation rejection carrying only an error message, with no status,
timestamp or model field. -/
theorem envelope_outcome_shapes (client : LingshuModelClient)
    (backend : Backend) (fs : FileSystem) (clock : Clock)
    (image_path analysis_type patient_context language : String)
    (findings : List String) (report_type : String)
    (patient_info : Option (List (String × String))) (template : String)
    (question context specialty : String) :
    wellFormedOutcome
      (analyze_medical_image client backend fs clock image_path analysis_type
        patient_context language).1 clock.iso
    ∧ wellFormedOutcome
      (generate_medical_report client backend clock findings report_type
        patient_info language template).1 clock.iso
    ∧ wellFormedOutcome
      (medical_qa client backend clock question context specialty
        language).1 clock.iso := by
  refine ⟨?_, ?_, ?_⟩
  · unfold analyze_medical_image
    split
    · simp [wellFormedOutcome]
    · split
      · simp [wellFormedOutcome]
      · next bytes hfs =>
          cases hg : client.generate backend
              (if language = "en"
                then analyzePromptEn
                  (if analysis_type ∈ valid_types then analysis_type
                   else "general") patient_context
                else analyzePromptZh
                  (if analysis_type ∈ valid_types then analysis_type
                   else "general") patient_context)
              (some (base64Encode bytes)) 2048 1 with
          | ok r => simp [hg, wellFormedOutcome]
          | error e => simp [hg, wellFormedOutcome]
  · unfold generate_medical_report
    split
    · simp [wellFormedOutcome]
    · cases hg : client.generate backend
          (if language = "en"
            then reportPromptEn report_type
              (String.intercalate "\n"
                (findings.map (fun finding => "• " ++ finding)))
              (if patient_info.getD [] = [] then ""
               else "Patient Information:\n" ++
                 jsonDumps (patient_info.getD []) ++ "\n")
              template clock.dateEn
            else reportPromptZh report_type
              (String.intercalate "\n"
                (findings.map (fun finding => "• " ++ finding)))
              (if patient_info.getD [] = [] then ""
               else "Patient Information:\n" ++
                 jsonDumps (patient_info.getD []) ++ "\n")
              template clock.dateZh)
          none 3072 1 with
      | ok r => simp [hg, wellFormedOutcome]
      | error e => simp [hg, wellFormedOutcome]
  · unfold medical_qa
    split
    · simp [wellFormedOutcome]
    · cases hg : client.generate backend
          (if language = "en" then qaPromptEn specialty question context
           else qaPromptZh specialty question context) none 2048 2 with
      | ok r => simp [hg, wellFormedOutcome]
      | error e => simp [hg, wellFormedOutcome]

/-- C2: each input-validation failure (empty `image_path`, empty
`findings`, whitespace-only `question`) returns its error dictionary
immediately, and the issued backend-request list is empty. -/
theorem validation_errors_skip_backend (client : LingshuModelClient)
    (backend : Backend) (fs : FileSystem) (clock : Clock)
    (image_path analysis_type patient_context language : String)
    (findings : List String) (report_type : String)
    (patient_info : Option (List (String × String))) (template : String)
    (question context specialty : String)
    (himg : image_path = "") (hfind : findings = [])
    (hq : pyStrip question = "") :
    analyze_medical_image client backend fs clock image_path analysis_type
        patient_context language
      = ({ error := some "No image data provided" }, [])
    ∧ generate_medical_report client backend clock findings report_type
        patient_info language template
      = ({ error := some "No medical findings provided" }, [])
    ∧ medical_qa client backend clock question context specialty language
      = ({ error := some "No question provided" }, []) := by
  subst himg hfind
  exact ⟨by simp [analyze_medical_image],
         by simp [generate_medical_report],
         by simp [medical_qa, hq]⟩

/-- C2 (witness): concrete invalid inputs for the three operations. -/
theorem validation_errors_skip_backend_witness :
    analyze_medical_image client0 echoStubBackend fs0 clock0
        "" "radiology" "" "zh"
      = ({ error := some "No image data provided" }, [])
    ∧ generate_medical_report client0 echoStubBackend clock0
        [] "diagnostic" none "zh" "standard"
      = ({ error := some "No medical findings provided" }, [])
    ∧ medical_qa client0 echoStubBackend clock0 " " "" "general" "zh"
      = ({ error := some "No question provided" }, []) :=
  validation_errors_skip_backend client0 echoStubBackend fs0 clock0
    "" "radiology" "" "zh" [] "diagnostic" none "standard" " " "" "general"
    rfl rfl (by decide)

/-- C6: a non-empty `image_path` whose `open` fails yields an error
envelope (status, message, timestamp) and an empty backend-request list. -/
theorem unreadable_image_error_no_backend_call (client : LingshuModelClient)
    (backend : Backend) (fs : FileSystem) (clock : Clock)
    (image_path analysis_type patient_context language e : String)
    (himg : image_path ≠ "") (hfs : fs image_path = .error e) :
    analyze_medical_image client backend fs clock image_path analysis_type
        patient_context language
      = ({ status := some "error", error := some e,
           timestamp := some clock.iso }, []) := by
  simp [analyze_medical_image, himg, hfs]

/-- C6 (witness): a concrete nonexistent path. -/
theorem unreadable_image_error_no_backend_call_witness :
    analyze_medical_image client0 echoStubBackend fs0 clock0
        "missing.png" "radiology" "" "zh"
      = ({ status := some "error",
           error := some "[Errno 2] No such file or directory: missing.png",
           timestamp := some clock0.iso }, []) :=
  unreadable_image_error_no_backend_call client0 echoStubBackend fs0 clock0
    "missing.png" "radiology" "" "zh"
    "[Errno 2] No such file or directory: missing.png"
    (by decide) rfl

/-- C10: whenever `analyze_medical_image` returns a success envelope, the
`analysis_type` it echoes is a member of the enumerated valid set. -/
theorem success_analysis_type_in_valid_set (client : LingshuModelClient)
    (backend : Backend) (fs : FileSystem) (clock : Clock)
    (image_path analysis_type patient_context language : String)
    (h : (analyze_medical_image client backend fs clock image_path
            analysis_type patient_context language).1.status
          = some "success") :
    ∃ t, (analyze_medical_image client backend fs clock image_path
            analysis_type patient_context language).1.analysis_type = some t
      ∧ t ∈ valid_types := by
  revert h
  unfold analyze_medical_image
  split
  · intro h; simp at h
  · split
    · intro h; simp at h
    · next bytes hfs =>
        cases hg : client.generate backend
            (if language = "en"
              then analyzePromptEn
                (if analysis_type ∈ valid_types then analysis_type
                 else "general") patient_context
              else analyzePromptZh
                (if analysis_type ∈ valid_types then analysis_type
                 else "general") patient_context)
            (some (base64Encode bytes)) 2048 1 with
        | ok r =>
            intro _
            simp only [hg]
            refine ⟨_, rfl, ?_⟩
            by_cases hm : analysis_type ∈ valid_types
            · rwa [if_pos hm]
            · rw [if_neg hm]; decide
        | error e => intro h; simp [hg] at h

/-- C10 (witness): an unrecognized caller value is echoed as `general`. -/
theorem success_analysis_type_in_valid_set_witness :
    ∃ t, (analyze_medical_image client0 (fun _ => .ok "Report text.") fs0
            clock0 "lung.jpeg" "cardiology" "" "zh").1.analysis_type = some t
      ∧ t ∈ valid_types :=
  success_analysis_type_in_valid_set client0 (fun _ => .ok "Report text.")
    fs0 clock0 "lung.jpeg" "cardiology" "" "zh" rfl

/-- C3: when the image is readable, an enumerated `analysis_type` reaches
the backend request unchanged; any other string is replaced by `general`
before the prompt is built; and the substitution is not an error — the
operation still succeeds when the backend does. -/
theorem analysis_type_coercion (client : LingshuModelClient)
    (backend : Backend) (fs : FileSystem) (clock : Clock)
    (bytes : List (Fin 256))
    (image_path analysis_type patient_context language : String)
    (himg : image_path ≠ "") (hfs : fs image_path = .ok bytes) :
    (analysis_type ∈ valid_types →
      (analyze_medical_image client backend fs clock image_path analysis_type
          patient_context language).2
        = [client.request
            (if language = "en" then analyzePromptEn analysis_type patient_context
             else analyzePromptZh analysis_type patient_context)
            (some (base64Encode bytes)) 2048 1])
    ∧ (analysis_type ∉ valid_types →
      (analyze_medical_image client backend fs clock image_path analysis_type
          patient_context language).2
        = [client.request
            (if language = "en" then analyzePromptEn "general" patient_context
             else analyzePromptZh "general" patient_context)
            (some (base64Encode bytes)) 2048 1])
    ∧ (∀ t, (∀ req, backend req = .ok t) →
        (analyze_medical_image client backend fs clock image_path analysis_type
          patient_context language).1.status = some "success") := by
  have h1 : (analyze_medical_image client backend fs clock image_path
        analysis_type patient_context language).2
      = [client.request
          (if language = "en"
            then analyzePromptEn
              (if analysis_type ∈ valid_types then analysis_type
               else "general") patient_context
            else analyzePromptZh
              (if analysis_type ∈ valid_types then analysis_type
               else "general") patient_context)
          (some (base64Encode bytes)) 2048 1] := by
    unfold analyze_medical_image
    rw [if_neg himg]
    simp only [hfs]
    cases hg : client.generate backend
        (if language = "en"
          then analyzePromptEn
            (if analysis_type ∈ valid_types then analysis_type
             else "general") patient_context
          else analyzePromptZh
            (if analysis_type ∈ valid_types then analysis_type
             else "general") patient_context)
        (some (base64Encode bytes)) 2048 1 with
    | ok r => simp [hg]
    | error e => simp [hg]
  refine ⟨fun hm => ?_, fun hm => ?_, fun t hbk => ?_⟩
  · rw [h1, if_pos hm]
  · rw [h1, if_neg hm]
  · simp [analyze_medical_image, himg, hfs, LingshuModelClient.generate, hbk]

/-- C3 (witness): the unrecognized value `cardiology` is coerced to
`general` in the single backend request. -/
theorem analysis_type_coercion_witness :
    ("cardiology" : String) ∉ valid_types
    ∧ (analyze_medical_image client0 echoStubBackend fs0 clock0
        "lung.jpeg" "cardiology" "" "zh").2
      = [client0.request
          (if ("zh" : String) = "en" then analyzePromptEn "general" ""
           else analyzePromptZh "general" "")
          (some (base64Encode [(77 : Fin 256)])) 2048 1] :=
  ⟨by decide,
   (analysis_type_coercion client0 echoStubBackend fs0 clock0
      [(77 : Fin 256)] "lung.jpeg" "cardiology" "" "zh"
      (by decide) rfl).2.1 (by decide)⟩

/-- C4: in each operation, the branch on `language` is total and two-way:
the single backend request always carries either the English or the
Chinese template (no third branch exists), it carries the English template
exactly when `language = "en"`, and for every other value of `language` it
carries the Chinese template. -/
theorem language_branch_total (client : LingshuModelClient)
    (backend : Backend) (fs : FileSystem) (clock : Clock)
    (bytes : List (Fin 256))
    (image_path analysis_type patient_context language : String)
    (findings : List String) (report_type : String)
    (patient_info : Option (List (String × String))) (template : String)
    (question context specialty : String)
    (himg : image_path ≠ "") (hfs : fs image_path = .ok bytes)
    (hfind : findings ≠ []) (hq : pyStrip question ≠ "") :
    (((analyze_medical_image client backend fs clock image_path analysis_type
          patient_context language).2.map (fun r => r.content.textOf)
        = [if language = "en"
            then analyzePromptEn
              (if analysis_type ∈ valid_types then analysis_type
               else "general") patient_context
            else analyzePromptZh
              (if analysis_type ∈ valid_types then analysis_type
               else "general") patient_context])
      ∧ (((analyze_medical_image client backend fs clock image_path
            analysis_type patient_context language).2.map
            (fun r => r.content.textOf)
          = [analyzePromptEn
              (if analysis_type ∈ valid_types then analysis_type
               else "general")
              patient_context])
        ↔ language = "en")
      ∧ (language ≠ "en" →
          (analyze_medical_image client backend fs clock image_path
            analysis_type patient_context language).2.map
            (fun r => r.content.textOf)
          = [analyzePromptZh
              (if analysis_type ∈ valid_types then analysis_type
               else "general")
              patient_context]))
    ∧ (((generate_medical_report client backend clock findings report_type
          patient_info language template).2.map (fun r => r.content.textOf)
        = [if language = "en"
            then reportPromptEn report_type
              (String.intercalate "\n"
                (findings.map (fun finding => "• " ++ finding)))
              (if patient_info.getD [] = [] then ""
               else "Patient Information:\n" ++
                 jsonDumps (patient_info.getD []) ++ "\n")
              template clock.dateEn
            else reportPromptZh report_type
              (String.intercalate "\n"
                (findings.map (fun finding => "• " ++ finding)))
              (if patient_info.getD [] = [] then ""
               else "Patient Information:\n" ++
                 jsonDumps (patient_info.getD []) ++ "\n")
              template clock.dateZh])
      ∧ (((generate_medical_report client backend clock findings report_type
            patient_info language template).2.map (fun r => r.content.textOf)
          = [reportPromptEn report_type
              (String.intercalate "\n"
                (findings.map (fun finding => "• " ++ finding)))
              (if patient_info.getD [] = [] then ""
               else "Patient Information:\n" ++
                 jsonDumps (patient_info.getD []) ++ "\n")
              template clock.dateEn])
        ↔ language = "en")
      ∧ (language ≠ "en" →
          (generate_medical_report client backend clock findings report_type
            patient_info language template).2.map (fun r => r.content.textOf)
          = [reportPromptZh report_type
              (String.intercalate "\n"
                (findings.map (fun finding => "• " ++ finding)))
              (if patient_info.getD [] = [] then ""
               else "Patient Information:\n" ++
                 jsonDumps (patient_info.getD []) ++ "\n")
              template clock.dateZh]))
    ∧ (((medical_qa client backend clock question context specialty
          language).2.map (fun r => r.content.textOf)
        = [if language = "en" then qaPromptEn specialty question context
           else qaPromptZh specialty question context])
      ∧ (((medical_qa client backend clock question context specialty
            language).2.map (fun r => r.content.textOf)
          = [qaPromptEn specialty question context])
        ↔ language = "en")
      ∧ (language ≠ "en" →
          (medical_qa client backend clock question context specialty
            language).2.map (fun r => r.content.textOf)
          = [qaPromptZh specialty question context])) := by
  have ha : (analyze_medical_image client backend fs clock image_path
        analysis_type patient_context language).2.map
        (fun r => r.content.textOf)
      = [if language = "en"
          then analyzePromptEn
            (if analysis_type ∈ valid_types then analysis_type
             else "general") patient_context
          else analyzePromptZh
            (if analysis_type ∈ valid_types then analysis_type
             else "general") patient_context] := by
    unfold analyze_medical_image
    rw [if_neg himg]
    simp only [hfs]
    cases hg : client.generate backend
        (if language = "en"
          then analyzePromptEn
            (if analysis_type ∈ valid_types then analysis_type
             else "general") patient_context
          else analyzePromptZh
            (if analysis_type ∈ valid_types then analysis_type
             else "general") patient_context)
        (some (base64Encode bytes)) 2048 1 with
    | ok r => simp [hg, textOf_request]
    | error e => simp [hg, textOf_request]
  have hb : (generate_medical_report client backend clock findings
        report_type patient_info language template).2.map
        (fun r => r.content.textOf)
      = [if language = "en"
          then reportPromptEn report_type
            (String.intercalate "\n"
              (findings.map (fun finding => "• " ++ finding)))
            (if patient_info.getD [] = [] then ""
             else "Patient Information:\n" ++
               jsonDumps (patient_info.getD []) ++ "\n")
            template clock.dateEn
          else reportPromptZh report_type
            (String.intercalate "\n"
              (findings.map (fun finding => "• " ++ finding)))
            (if patient_info.getD [] = [] then ""
             else "Patient Information:\n" ++
               jsonDumps (patient_info.getD []) ++ "\n")
            template clock.dateZh] := by
    unfold generate_medical_report
    rw [if_neg hfind]
    cases hg : client.generate backend
        (if language = "en"
          then reportPromptEn report_type
            (String.intercalate "\n"
              (findings.map (fun finding => "• " ++ finding)))
            (if patient_info.getD [] = [] then ""
             else "Patient Information:\n" ++
               jsonDumps (patient_info.getD []) ++ "\n")
            template clock.dateEn
          else reportPromptZh report_type
            (String.intercalate "\n"
              (findings.map (fun finding => "• " ++ finding)))
            (if patient_info.getD [] = [] then ""
             else "Patient Information:\n" ++
               jsonDumps (patient_info.getD []) ++ "\n")
            template clock.dateZh)
        none 3072 1 with
    | ok r => simp [hg, textOf_request]
    | error e => simp [hg, textOf_request]
  have hc : (medical_qa client backend clock question context specialty
        language).2.map (fun r => r.content.textOf)
      = [if language = "en" then qaPromptEn specialty question context
         else qaPromptZh specialty question context] := by
    unfold medical_qa
    rw [if_neg hq]
    cases hg : client.generate backend
        (if language = "en" then qaPromptEn specialty question context
         else qaPromptZh specialty question context) none 2048 2 with
    | ok r => simp [hg, textOf_request]
    | error e => simp [hg, textOf_request]
  refine ⟨⟨ha, ⟨fun h => ?_, fun hl => ?_⟩, fun hl => ?_⟩,
          ⟨hb, ⟨fun h => ?_, fun hl => ?_⟩, fun hl => ?_⟩,
          ⟨hc, ⟨fun h => ?_, fun hl => ?_⟩, fun hl => ?_⟩⟩
  · rcases eq_or_ne language "en" with hl | hl
    · exact hl
    · rw [ha, if_neg hl] at h
      simp only [List.cons.injEq, and_true] at h
      exact absurd h.symm (analyzePrompt_en_ne_zh _ _ _ _)
  · rw [ha, if_pos hl]
  · rw [ha, if_neg hl]
  · rcases eq_or_ne language "en" with hl | hl
    · exact hl
    · rw [hb, if_neg hl] at h
      simp only [List.cons.injEq, and_true] at h
      exact absurd h.symm (reportPrompt_en_ne_zh _ _ _ _ _ _ _ _ _ _)
  · rw [hb, if_pos hl]
  · rw [hb, if_neg hl]
  · rcases eq_or_ne language "en" with hl | hl
    · exact hl
    · rw [hc, if_neg hl] at h
      simp only [List.cons.injEq, and_true] at h
      exact absurd h.symm (qaPrompt_en_ne_zh _ _ _ _ _ _)
  · rw [hc, if_pos hl]
  · rw [hc, if_neg hl]

/-- C4 (witness): with `language = "en"`, `medical_qa` sends the English
template; with the default `language = "zh"`, it sends the Chinese one. -/
theorem language_branch_total_witness :
    (((medical_qa client0 echoStubBackend clock0 "What is influenza?" ""
          "general" "en").2.map (fun r => r.content.textOf)
        = [qaPromptEn "general" "What is influenza?" ""])
      ↔ ("en" : String) = "en")
    ∧ (("zh" : String) ≠ "en" →
        (medical_qa client0 echoStubBackend clock0 "What is influenza?" ""
          "general" "zh").2.map (fun r => r.content.textOf)
        = [qaPromptZh "general" "What is influenza?" ""]) :=
  ⟨(language_branch_total client0 echoStubBackend fs0 clock0
      [(77 : Fin 256)] "lung.jpeg" "radiology" "" "en"
      ["Nodule in right upper lobe"] "diagnostic" none "standard"
      "What is influenza?" "" "general"
      (by decide) rfl (by decide) (by decide)).2.2.2.1,
   (language_branch_total client0 echoStubBackend fs0 clock0
      [(77 : Fin 256)] "lung.jpeg" "radiology" "" "zh"
      ["Nodule in right upper lobe"] "diagnostic" none "standard"
      "What is influenza?" "" "general"
      (by decide) rfl (by decide) (by decide)).2.2.2.2⟩

/-- C5: any backend fault is wrapped by `LingshuModelClient.generate` into
a domain failure carrying `Lingshu model call failed:` plus the original
description, and each operation converts that failure into an error
envelope with the description and a timestamp. -/
theorem backend_failure_wrapped_into_error_envelope
    (client : LingshuModelClient) (backend : Backend) (fs : FileSystem)
    (clock : Clock) (bytes : List (Fin 256))
    (image_path analysis_type patient_context language : String)
    (findings : List String) (report_type : String)
    (patient_info : Option (List (String × String))) (template : String)
    (question context specialty e prompt : String)
    (image_data : Option String) (max_tokens temperature10 : Nat)
    (hbk : ∀ req, backend req = .error e)
    (himg : image_path ≠ "") (hfs : fs image_path = .ok bytes)
    (hfind : findings ≠ []) (hq : pyStrip question ≠ "") :
    client.generate backend prompt image_data max_tokens temperature10
      = .error ("Lingshu model call failed: " ++ e)
    ∧ (analyze_medical_image client backend fs clock image_path analysis_type
          patient_context language).1
      = { status := some "error",
          error := some ("Lingshu model call failed: " ++ e),
          timestamp := some clock.iso }
    ∧ (generate_medical_report client backend clock findings report_type
          patient_info language template).1
      = { status := some "error",
          error := some ("Lingshu model call failed: " ++ e),
          timestamp := some clock.iso }
    ∧ (medical_qa client backend clock question context specialty
          language).1
      = { status := some "error",
          error := some ("Lingshu model call failed: " ++ e),
          timestamp := some clock.iso } := by
  refine ⟨?_, ?_, ?_, ?_⟩
  · simp [LingshuModelClient.generate, hbk]
  · simp [analyze_medical_image, himg, hfs, LingshuModelClient.generate, hbk]
  · simp [generate_medical_report, hfind, LingshuModelClient.generate, hbk]
  · simp [medical_qa, hq, LingshuModelClient.generate, hbk]

/-- C5 (witness): a backend that always fails with `Connection error.`. -/
theorem backend_failure_wrapped_into_error_envelope_witness :
    client0.generate (fun _ => .error "Connection error.") "p" none 2048 1
      = .error ("Lingshu model call failed: " ++ "Connection error.")
    ∧ (analyze_medical_image client0 (fun _ => .error "Connection error.")
          fs0 clock0 "lung.jpeg" "radiology" "" "zh").1
      = { status := some "error",
          error := some ("Lingshu model call failed: " ++ "Connection error."),
          timestamp := some clock0.iso }
    ∧ (generate_medical_report client0 (fun _ => .error "Connection error.")
          clock0 ["Nodule in right upper lobe"] "diagnostic" none "zh"
          "standard").1
      = { status := some "error",
          error := some ("Lingshu model call failed: " ++ "Connection error."),
          timestamp := some clock0.iso }
    ∧ (medical_qa client0 (fun _ => .error "Connection error.") clock0
          "What is influenza?" "" "general" "zh").1
      = { status := some "error",
          error := some ("Lingshu model call failed: " ++ "Connection error."),
          timestamp := some clock0.iso } :=
  backend_failure_wrapped_into_error_envelope client0
    (fun _ => .error "Connection error.") fs0 clock0 [(77 : Fin 256)]
    "lung.jpeg" "radiology" "" "zh" ["Nodule in right upper lobe"]
    "diagnostic" none "standard" "What is influenza?" "" "general"
    "Connection error." "p" none 2048 1
    (fun _ => rfl) (by decide) rfl (by decide) (by decide)

/-- C7 (counterexample): a stub backend returning the empty string yields a
success envelope whose payload (`answer`) is empty, contradicting the claim
that the payload is non-empty for every value the backend returns. -/
theorem empty_backend_text_gives_empty_payload :
    (medical_qa client0 (fun _ => .ok "") clock0 "What is influenza?" ""
        "general" "zh").1.status = some "success"
    ∧ (medical_qa client0 (fun _ => .ok "") clock0 "What is influenza?" ""
        "general" "zh").1.answer = some "" :=
  ⟨rfl, rfl⟩

/-- C7 (amended): every success-path envelope carries `status = "success"`,
the timestamp, and a payload field (`report` or `answer`) equal to the text
the backend returned — hence non-empty exactly when that text is. -/
theorem success_envelope_payload (client : LingshuModelClient)
    (backend : Backend) (fs : FileSystem) (clock : Clock)
    (bytes : List (Fin 256))
    (image_path analysis_type patient_context language : String)
    (findings : List String) (report_type : String)
    (patient_info : Option (List (String × String))) (template : String)
    (question context specialty t : String)
    (hbk : ∀ req, backend req = .ok t)
    (himg : image_path ≠ "") (hfs : fs image_path = .ok bytes)
    (hfind : findings ≠ []) (hq : pyStrip question ≠ "") :
    ((analyze_medical_image client backend fs clock image_path analysis_type
          patient_context language).1.status = some "success"
      ∧ (analyze_medical_image client backend fs clock image_path
          analysis_type patient_context language).1.timestamp
        = some clock.iso
      ∧ (analyze_medical_image client backend fs clock image_path
          analysis_type patient_context language).1.report = some t)
    ∧ ((generate_medical_report client backend clock findings report_type
          patient_info language template).1.status = some "success"
      ∧ (generate_medical_report client backend clock findings report_type
          patient_info language template).1.timestamp = some clock.iso
      ∧ (generate_medical_report client backend clock findings report_type
          patient_info language template).1.report = some t)
    ∧ ((medical_qa client backend clock question context specialty
          language).1.status = some "success"
      ∧ (medical_qa client backend clock question context specialty
          language).1.timestamp = some clock.iso
      ∧ (medical_qa client backend clock question context specialty
          language).1.answer = some t) := by
  refine ⟨⟨?_, ?_, ?_⟩, ⟨?_, ?_, ?_⟩, ⟨?_, ?_, ?_⟩⟩ <;>
    simp [analyze_medical_image, generate_medical_report, medical_qa,
      himg, hfs, hfind, hq, LingshuModelClient.generate, hbk]

/-- C7 (witness): a concrete successful backend text. -/
theorem success_envelope_payload_witness :
    ((analyze_medical_image client0 (fun _ => .ok "Generated text.") fs0
        clock0 "lung.jpeg" "radiology" "" "zh").1.status = some "success"
      ∧ (analyze_medical_image client0 (fun _ => .ok "Generated text.") fs0
          clock0 "lung.jpeg" "radiology" "" "zh").1.timestamp
        = some clock0.iso
      ∧ (analyze_medical_image client0 (fun _ => .ok "Generated text.") fs0
          clock0 "lung.jpeg" "radiology" "" "zh").1.report
        = some "Generated text.")
    ∧ ((generate_medical_report client0 (fun _ => .ok "Generated text.")
          clock0 ["Nodule in right upper lobe"] "diagnostic" none "zh"
          "standard").1.status = some "success"
      ∧ (generate_medical_report client0 (fun _ => .ok "Generated text.")
          clock0 ["Nodule in right upper lobe"] "diagnostic" none "zh"
          "standard").1.timestamp = some clock0.iso
      ∧ (generate_medical_report client0 (fun _ => .ok "Generated text.")
          clock0 ["Nodule in right upper lobe"] "diagnostic" none "zh"
          "standard").1.report = some "Generated text.")
    ∧ ((medical_qa client0 (fun _ => .ok "Generated text.") clock0
          "What is influenza?" "" "general" "zh").1.status = some "success"
      ∧ (medical_qa client0 (fun _ => .ok "Generated text.") clock0
          "What is influenza?" "" "general" "zh").1.timestamp
        = some clock0.iso
      ∧ (medical_qa client0 (fun _ => .ok "Generated text.") clock0
          "What is influenza?" "" "general" "zh").1.answer
        = some "Generated text.") :=
  success_envelope_payload client0 (fun _ => .ok "Generated text.") fs0
    clock0 [(77 : Fin 256)] "lung.jpeg" "radiology" "" "zh"
    ["Nodule in right upper lobe"] "diagnostic" none "standard"
    "What is influenza?" "" "general" "Generated text."
    (fun _ => rfl) (by decide) rfl (by decide) (by decide)

set_option maxRecDepth 100000 in
/-- C8: `medical_qa` on the pleural-effusion question with
`specialty = "radiology"` and `language = "en"`, against a stub backend
that echoes its prompt, returns a success envelope whose answer contains
the educational disclaimer and whose specialty field is `radiology`. -/
theorem medical_qa_radiology_scenario :
    (medical_qa client0 echoStubBackend clock0
        "What causes a pleural effusion?" "" "radiology" "en").1.status
      = some "success"
    ∧ (medical_qa client0 echoStubBackend clock0
        "What causes a pleural effusion?" "" "radiology" "en").1.specialty
      = some "radiology"
    ∧ ∃ ans,
        (medical_qa client0 echoStubBackend clock0
          "What causes a pleural effusion?" "" "radiology" "en").1.answer
          = some ans
        ∧ strContains ans qaDisclaimerEn := by
  refine ⟨rfl, rfl, _, rfl,
    "You are a knowledgeable medical expert specializing in radiology.\x20
Please provide a comprehensive, accurate, and professional answer to the following medical question.

**Question:** What causes a pleural effusion?

**Context:** No additional context provided

Please provide:
1. A clear, evidence-based answer
2. Relevant medical terminology and explanations
3. Clinical considerations where applicable
4. Any important caveats or limitations
5. Recommendations for further evaluation if needed

", "", by rfl⟩

/-- C9: the agent builds exactly one function-calling entry per Tool
Descriptor, carrying the descriptor's name, description, properties, and a
`required` list taken from its schema, defaulting to the empty list when
the schema declares none. -/
theorem tool_schema_translation (tools : List ToolInfo) (i : Nat)
    (t : ToolInfo) (hi : tools[i]? = some t) :
    (tool_schemas tools).length = tools.length
    ∧ (tool_schemas tools)[i]?
      = some
        { type := "function"
          function :=
            { name := t.name
              description := t.description
              parameters :=
                { type := t.inputSchema.type?.getD "object"
                  properties := t.inputSchema.properties.map (fun p => p)
                  required := t.inputSchema.required?.getD [] } } }
    ∧ (t.inputSchema.required? = none →
        ((tool_schemas tools)[i]?.map
          (fun entry => entry.function.parameters.required)) = some []) := by
  refine ⟨by simp [tool_schemas], ?_, fun hr => ?_⟩
  · simp [tool_schemas, List.getElem?_map, hi]
  · simp [tool_schemas, List.getElem?_map, hi, hr]

/-- C9 (witness): the provider's three descriptors yield three entries;
the second entry is the translated `generate_medical_report` schema. -/
theorem tool_schema_translation_witness :
    (tool_schemas tools3).length = tools3.length
    ∧ (tool_schemas tools3)[1]?
      = some
        { type := "function"
          function :=
            { name := reportToolInfo.name
              description := reportToolInfo.description
              parameters :=
                { type := reportToolInfo.inputSchema.type?.getD "object"
                  properties :=
                    reportToolInfo.inputSchema.properties.map (fun p => p)
                  required :=
                    reportToolInfo.inputSchema.required?.getD [] } } } :=
  ⟨(tool_schema_translation tools3 1 reportToolInfo rfl).1,
   (tool_schema_translation tools3 1 reportToolInfo rfl).2.1⟩

end LingshuMCP
